import Mathlib

/-!
Verification of the interactive Christmas-tree scene (src/components/*.tsx).

The development shallowly embeds the algorithmic core of the repository:
the gesture-to-state mapper (`GestureController.tsx`), the focus selection
and spiral placement of photo frames (`PhotoFrames.tsx`), the ornament
placement (`Ornaments.tsx`), the progress controller and rotation physics
(`Foliage.tsx`, `ChristmasTree`), and the ambient dust particle attractor
(`MagicalDust.tsx`).  Machine floating point is modelled by exact rationals
(ℚ) where the code is plain arithmetic, and by ℝ where transcendental
functions (`Math.exp`, `Math.PI`, trigonometry) appear.  Calls to
`Math.random()` are modelled as explicit parameters ranging over the
interval the call draws from.
-/

/-- Modelled from the spec: `TreeState` lives in `src/types.ts`, which is not
among the provided sources.  The spec's data model defines it as the
two-element enumeration `{CHAOS, FORMED}`. -/
inductive TreeState where
  | CHAOS : TreeState
  | FORMED : TreeState
deriving DecidableEq

/-! ## Gesture-to-state mapper (`src/components/GestureController.tsx`)

`predictWebcam` (lines 99-169) processes one recognizer result per video
frame.  On a detection it (1) maps the gesture category to a tree state,
(2) publishes the palm position as an active attraction target, and
(3) emits a `tree-spin` event when the horizontal hand delta exceeds a
noise threshold.  On hand loss it resets the swipe tracker and publishes
an inactive attraction target. -/

/-- Lines 129-133: `Open_Palm` sets CHAOS, `Closed_Fist` sets FORMED, any
other category leaves the state unchanged. -/
def applyGesture (s : TreeState) (category : String) : TreeState :=
  if category = "Open_Palm" then TreeState.CHAOS
  else if category = "Closed_Fist" then TreeState.FORMED
  else s

/-- Lines 144-155: swipe step.  Given the tracked previous horizontal hand
position (`previousHandX`, `none` after a hand loss) and the current
mirrored hand position `handX = 1 - centerX`, returns the emitted
`tree-spin` velocity (if any) and the new tracked position. -/
def swipeStep (prev : Option ℚ) (handX : ℚ) : Option ℚ × Option ℚ :=
  match prev with
  | none => (none, some handX)
  | some p =>
      let delta := handX - p
      (if |delta| > 0.008 then some (delta * 1.2) else none, some handX)

/-- Result of one `predictWebcam` frame: the new tree state, the new swipe
tracker, whether the `hand-move` event published `active`, and the
`tree-spin` velocity emitted this frame (if any). -/
structure FrameOutput where
  treeState : TreeState
  prevHandX : Option ℚ
  handMoveActive : Bool
  spinEvent : Option ℚ
deriving DecidableEq

/-- One frame of `predictWebcam` (lines 114-165).  `det` is `some (g, cx)`
when a hand with gesture category `g` and palm-center x-coordinate `cx`
is detected, and `none` on hand loss.  `handX = 1 - cx` mirrors the
video preview. -/
def gestureFrame (ts : TreeState) (prev : Option ℚ) (det : Option (String × ℚ)) :
    FrameOutput :=
  match det with
  | none => ⟨ts, none, false, none⟩
  | some (g, cx) =>
      let ts1 := applyGesture ts g
      let handX := 1 - cx
      let sw := swipeStep prev handX
      ⟨ts1, sw.2, true, sw.1⟩

/-- States traversed by a stream of gesture classifications, starting
from `s₀`: the list of states after each frame. -/
def gestureStates (s : TreeState) (gs : List String) : List TreeState :=
  match gs with
  | [] => []
  | g :: rest =>
      let s1 := applyGesture s g
      s1 :: gestureStates s1 rest

/-- Events emitted by a run of consecutive hand detections at the given
mirrored positions (tracker starts as `prev`): collects every emitted
`tree-spin` velocity in order. -/
def swipeRun (prev : Option ℚ) (xs : List ℚ) : List ℚ :=
  match xs with
  | [] => []
  | x :: rest =>
      let s := swipeStep prev x
      match s.1 with
      | none => swipeRun s.2 rest
      | some v => v :: swipeRun s.2 rest

/-! ## Focus selection (`src/components/PhotoFrames.tsx` lines 93-107,
`src/components/Foliage.tsx` ChristmasTree lines 225 and 333-338) -/

/-- Clicking frame `i` (PhotoFrames line 103):
`setFocusedIndex(focusedIndex === i ? null : i)`. -/
def clickFrame (sel : Option ℕ) (i : ℕ) : Option ℕ :=
  if sel = some i then none else some i

/-- Background click (`onBackgroundClick`, ChristmasTree lines 333-338):
clears the selection when not dragging and a frame is focused. -/
def backgroundClick (sel : Option ℕ) (isDragging : Bool) : Option ℕ :=
  if isDragging = false ∧ sel ≠ none then none else sel

/-! ## Rotation/drag physics (`src/components/Foliage.tsx`, `ChristmasTree`,
lines 212-321) -/

/-- The mutable refs of `ChristmasTree` that the pointer handlers touch:
`velocityY` (yaw angular velocity), `velocityX` (pitch angular velocity),
`isDragging`, `lastPointer`, and the group's rotation. -/
structure RotState where
  velY : ℚ
  velX : ℚ
  isDragging : Bool
  lastX : ℚ
  lastY : ℚ
  rotY : ℚ
  rotX : ℚ
deriving DecidableEq

/-- `handlePointerMove` (lines 243-270).  Ignores the event unless
dragging; always sets the yaw velocity from `deltaX`, sets the pitch
velocity from `deltaY` only in CHAOS, and applies both velocities to the
group rotation. -/
def handlePointerMove (s : RotState) (state : TreeState) (clientX clientY : ℚ) :
    RotState :=
  if s.isDragging = false then s
  else
    let deltaX := clientX - s.lastX
    let deltaY := clientY - s.lastY
    let sensitivity : ℚ := 0.0025
    let vY := deltaX * sensitivity
    let vX := if state = TreeState.CHAOS then deltaY * sensitivity else s.velX
    { velY := vY, velX := vX, isDragging := s.isDragging,
      lastX := clientX, lastY := clientY,
      rotY := s.rotY + vY, rotX := s.rotX + vX }

/-! ## Ambient dust attractor (`src/components/MagicalDust.tsx`) -/

/-- Per-particle state (`positions` / `velocities` arrays, lines 27-42). -/
structure Particle where
  px : ℚ
  py : ℚ
  pz : ℚ
  vx : ℚ
  vy : ℚ
  vz : ℚ
deriving DecidableEq

/-- Attraction-target selection (lines 69-83): the gesture hand target
takes precedence when active; otherwise the pointer is used, but only if
it has moved off the exact origin `(0,0)`; otherwise the frame is
inactive.  Returns `(targetX, targetY, isActive)`. -/
def computeTarget (handActive : Bool) (handX handY pointerX pointerY vw vh : ℚ) :
    ℚ × ℚ × Bool :=
  if handActive then (handX * vw / 2, handY * vh / 2, true)
  else if pointerX ≠ 0 ∨ pointerY ≠ 0 then (pointerX * vw / 2, pointerY * vh / 2, true)
  else (0, 0, false)

/-- Per-particle velocity update (lines 93-123).  When inactive each axis
is decayed by 0.95; when active: gravity, a conditional attraction force
with swirl cross-term (softer when the source is the gesture hand), random
turbulence (`turbX/Y/Z`, each drawn from `(Math.random()-0.5)*0.001`) and
0.97 drag.  `targetZ` is the fixed depth 8 (line 85). -/
def dustVelocity (p : Particle) (isActive handActive : Bool)
    (targetX targetY turbX turbY turbZ : ℚ) : ℚ × ℚ × ℚ :=
  if isActive = false then (p.vx * 0.95, p.vy * 0.95, p.vz * 0.95)
  else
    let dx := targetX - p.px
    let dy := targetY - p.py
    let dz := 8 - p.pz
    let distSq := dx * dx + dy * dy + dz * dz
    let vy1 := p.vy - 0.0001
    let v2 : ℚ × ℚ × ℚ :=
      if distSq < 200 then
        let force : ℚ := if handActive then 0.005 else 0.008
        (p.vx + dx * force * 0.02 + dy * 0.002,
         vy1 + dy * force * 0.02 - dx * 0.002,
         p.vz + dz * force * 0.02)
      else (p.vx, vy1, p.vz)
    ((v2.1 + turbX) * 0.97, (v2.2.1 + turbY) * 0.97, (v2.2.2 + turbZ) * 0.97)

/-- One frame of the dust simulation for one particle (lines 87-137):
velocity update, integration of the new velocity into the position, then
the respawn check `if (py < -15)` — note `py` is the local captured at
line 90, i.e. the position *before* this frame's integration.  On respawn
the position is re-randomized (`respawnX`, `respawnZ` model the two
`(Math.random()-0.5)*20` draws), `y` is set to 15, and all velocity
components are zeroed. -/
def dustStep (p : Particle) (isActive handActive : Bool)
    (targetX targetY turbX turbY turbZ respawnX respawnZ : ℚ) : Particle :=
  let v := dustVelocity p isActive handActive targetX targetY turbX turbY turbZ
  let p1 : Particle :=
    { px := p.px + v.1, py := p.py + v.2.1, pz := p.pz + v.2.2,
      vx := v.1, vy := v.2.1, vz := v.2.2 }
  if p.py < -15 then
    { px := respawnX, py := 15, pz := respawnZ, vx := 0, vy := 0, vz := 0 }
  else p1

/-! ## Spiral placement (`src/components/Ornaments.tsx`,
`src/components/PhotoFrames.tsx`) -/

/-- Target angle of ornament `i` (Ornaments.tsx line 62):
`const angle = i * 137.5 + (Math.random() * 0.5)` — the raw value is
passed to `Math.cos` / `Math.sin` (line 65), which take radians.
`jitter` models the `Math.random() * 0.5` draw. -/
noncomputable def ornamentAngle (i : ℕ) (jitter : ℝ) : ℝ :=
  i * 137.5 + jitter

/-- Target angle of photo frame `i` (PhotoFrames.tsx line 65):
`const angle = i * 137.5 * (Math.PI / 180)`, i.e. degrees converted to
radians before use in `Math.cos` / `Math.sin` (line 67). -/
noncomputable def photoFrameAngle (i : ℕ) : ℝ :=
  i * 137.5 * (Real.pi / 180)

/-- The golden angle of 137.5 degrees, expressed in radians, as the spec
requires for the per-index angular increment. -/
noncomputable def goldenAngleRad : ℝ :=
  137.5 * (Real.pi / 180)

/-- Target height of photo frame `i` with `t = i / count`
(PhotoFrames.tsx lines 46-55): linear band `(t*0.7 + 0.15)` of the tree
height, recentred, plus the `heightJitter` draw
(`(Math.random()-0.5)*1.5`), then clamped into
`[-height/2 + 1, height/2 - 2]`. -/
def photoFrameHeight (height t jitter : ℚ) : ℚ :=
  let h := (t * 0.7 + 0.15) * height - height / 2 + jitter
  max (-height / 2 + 1) (min (height / 2 - 2) h)

/-! ## Progress controller (`src/components/Foliage.tsx`, `ChristmasTree`
lines 288-291) -/

/-- `THREE.MathUtils.lerp(x, y, t) = (1 - t) * x + t * y` (three.js). -/
noncomputable def lerp (x y t : ℝ) : ℝ :=
  (1 - t) * x + t * y

/-- `THREE.MathUtils.damp(x, y, lambda, dt) = lerp(x, y, 1 - exp(-lambda*dt))`
(three.js); the per-frame progress update at line 291 is
`damp(progress, target, 2.0, delta)`. -/
noncomputable def damp (x y lambda dt : ℝ) : ℝ :=
  lerp x y (1 - Real.exp (-lambda * dt))

/-- One per-frame progress update (line 291): the target is 1 when FORMED
and 0 when CHAOS, and progress is damped toward it with lambda = 2.0. -/
noncomputable def advanceProgress (p : ℝ) (state : TreeState) (dt : ℝ) : ℝ :=
  damp p (if state = TreeState.FORMED then 1 else 0) 2 dt

/-- Progress after a sequence of frames with the tree state held fixed. -/
noncomputable def advanceList (p : ℝ) (state : TreeState) (dts : List ℝ) : ℝ :=
  dts.foldl (fun x dt => advanceProgress x state dt) p

/-- The binary target the progress controller chases (line 290). -/
def progressTarget (state : TreeState) : ℝ :=
  if state = TreeState.FORMED then 1 else 0

/-! ## Theorems for the claims -/

/-- Claim C5: the per-frame gesture classification maps `Open_Palm` to
CHAOS and `Closed_Fist` to FORMED, any other classification leaves the
tree state unchanged, and the stream
`[Open_Palm, Open_Palm, Closed_Fist]` starting from CHAOS yields the
state sequence CHAOS, CHAOS, FORMED. -/
theorem gesture_state_mapping (s : TreeState) (g : String)
    (hg : g ≠ "Open_Palm" ∧ g ≠ "Closed_Fist") :
    applyGesture s "Open_Palm" = TreeState.CHAOS ∧
    applyGesture s "Closed_Fist" = TreeState.FORMED ∧
    applyGesture s g = s ∧
    gestureStates TreeState.CHAOS ["Open_Palm", "Open_Palm", "Closed_Fist"] =
      [TreeState.CHAOS, TreeState.CHAOS, TreeState.FORMED] := by
  refine ⟨by simp [applyGesture], by simp [applyGesture], ?_, by decide⟩
  simp [applyGesture, hg.1, hg.2]

/-- Witness for C5 at the concrete gesture `Thumb_Up` in state FORMED. -/
theorem gesture_state_mapping_witness :
    applyGesture TreeState.FORMED "Thumb_Up" = TreeState.FORMED :=
  (gesture_state_mapping TreeState.FORMED "Thumb_Up" ⟨by decide, by decide⟩).2.2.1

/-- Claim C6: between two consecutive hand detections a `tree-spin`
event is emitted iff the absolute horizontal delta exceeds 0.008, its
velocity is the delta times 1.2, and the delta sequence
`[0.002, 0.003, 0.01]` (positions 0.1, 0.102, 0.105, 0.115) emits
exactly one event, of velocity 0.012, for the third delta. -/
theorem swipe_threshold_spec (p x v : ℚ) :
    ((swipeStep (some p) x).1 = some v ↔ |x - p| > 0.008 ∧ v = (x - p) * 1.2) ∧
    ((swipeStep (some p) x).1 ≠ none ↔ |x - p| > 0.008) ∧
    swipeRun (some 0.1) [0.102, 0.105, 0.115] = [0.012] := by
  refine ⟨?_, ?_, by norm_num [swipeRun, swipeStep, abs_of_nonneg]⟩ <;>
    by_cases h : |x - p| > 0.008 <;>
      simp [swipeStep, h, eq_comm]

/-- Claim C8: on a frame with no hand detection the mapper publishes an
inactive attraction target, resets the swipe tracker, and emits no spin
event; consequently the first detection after a hand loss emits no
`tree-spin` event, whatever the new hand position is. -/
theorem hand_loss_spec (ts ts2 : TreeState) (prev : Option ℚ) (g : String) (cx : ℚ) :
    gestureFrame ts prev none =
      ⟨ts, none, false, none⟩ ∧
    (gestureFrame ts2 none (some (g, cx))).spinEvent = none := by
  exact ⟨rfl, by simp [gestureFrame, swipeStep]⟩

/-- Claim C7: the focus selection is a single optional index — clicking
frame `b` while `a` is focused focuses exactly `b`, clicking the focused
frame clears the selection, and a background click (not dragging) while
a frame is focused clears the selection. -/
theorem focus_exclusive_spec (a b : ℕ) (hab : a ≠ b) :
    clickFrame (some a) b = some b ∧
    clickFrame (some a) a = none ∧
    backgroundClick (some a) false = none := by
  exact ⟨by simp [clickFrame, hab], by simp [clickFrame], by simp [backgroundClick]⟩

/-- Witness for C7 with frame 0 focused and frame 1 clicked. -/
theorem focus_exclusive_spec_witness :
    clickFrame (some 0) 1 = some 1 :=
  (focus_exclusive_spec 0 1 (by decide)).1

/-- Claim C4: while dragging, every pointer-move event sets the yaw
velocity to `deltaX * 0.0025` for either tree state, sets the pitch
velocity to `deltaY * 0.0025` when the state is CHAOS, and leaves the
pitch velocity unchanged when the state is FORMED. -/
theorem drag_pitch_asymmetry (s : RotState) (ts : TreeState) (cx cy : ℚ)
    (hd : s.isDragging = true) :
    (handlePointerMove s ts cx cy).velY = (cx - s.lastX) * 0.0025 ∧
    (ts = TreeState.CHAOS →
      (handlePointerMove s ts cx cy).velX = (cy - s.lastY) * 0.0025) ∧
    (ts = TreeState.FORMED →
      (handlePointerMove s ts cx cy).velX = s.velX) := by
  unfold handlePointerMove
  rw [hd]
  refine ⟨by simp, fun hc => by simp [hc], fun hf => by simp [hf]⟩

/-- Witness for C4: a dragging move in state FORMED keeps the pitch
velocity at its previous value 2 while the yaw velocity follows the
horizontal delta. -/
theorem drag_pitch_asymmetry_witness :
    (handlePointerMove ⟨1, 2, true, 3, 4, 5, 6⟩ TreeState.FORMED 10 20).velX = 2 :=
  (drag_pitch_asymmetry ⟨1, 2, true, 3, 4, 5, 6⟩ TreeState.FORMED 10 20 rfl).2.2 rfl

/-- Claim C10: with no active gesture target and the pointer exactly at
`(0,0)`, the frame is inactive — each velocity component is only decayed
by 0.95 (no force, gravity or turbulence), the new velocity is then
integrated into the position — and an active gesture target takes
precedence over any pointer position.  (`hfloor` keeps the particle away
from the separate respawn rule.) -/
theorem dust_idle_pointer_origin (p : Particle)
    (hX hY px2 py2 vw vh tX tY tx ty tz rX rZ : ℚ)
    (hfloor : -15 ≤ p.py) :
    computeTarget false hX hY 0 0 vw vh = (0, 0, false) ∧
    computeTarget true hX hY px2 py2 vw vh = (hX * vw / 2, hY * vh / 2, true) ∧
    dustVelocity p false false tX tY tx ty tz =
      (p.vx * 0.95, p.vy * 0.95, p.vz * 0.95) ∧
    dustStep p false false tX tY tx ty tz rX rZ =
      { px := p.px + p.vx * 0.95, py := p.py + p.vy * 0.95, pz := p.pz + p.vz * 0.95,
        vx := p.vx * 0.95, vy := p.vy * 0.95, vz := p.vz * 0.95 } := by
  refine ⟨by simp [computeTarget], by simp [computeTarget], rfl, ?_⟩
  unfold dustStep dustVelocity
  simp [not_lt.mpr hfloor]

/-- Witness for C10 at a concrete particle above the floor. -/
theorem dust_idle_pointer_origin_witness :
    dustStep ⟨1, 2, 3, 4, 6, 8⟩ false false 0 0 0 0 0 0 0 =
      { px := 1 + 4 * 0.95, py := 2 + 6 * 0.95, pz := 3 + 8 * 0.95,
        vx := 4 * 0.95, vy := 6 * 0.95, vz := 8 * 0.95 } :=
  (dust_idle_pointer_origin ⟨1, 2, 3, 4, 6, 8⟩ 0 0 0 0 0 0 0 0 0 0 0 0 0
    (by norm_num)).2.2.2

/-- Counterexample to claim C3 as stated: a particle at `y = -14.9` with
velocity `-2` in an inactive frame crosses the floor during this frame's
integration (`y` becomes `-16.8 < -15`), yet it is neither reset to the
ceiling nor is its velocity zeroed on that step, because the respawn
check reads the pre-integration `y` (`-14.9`, not below `-15`). -/
theorem dust_respawn_same_step_counterexample :
    -15 ≤ (-14.9 : ℚ) ∧
    (dustStep ⟨0, -14.9, 0, 0, -2, 0⟩ false false 0 0 0 0 0 0 0).py = -16.8 ∧
    (dustStep ⟨0, -14.9, 0, 0, -2, 0⟩ false false 0 0 0 0 0 0 0).vy = -1.9 ∧
    (-16.8 : ℚ) < -15 := by
  refine ⟨by norm_num, ?_, ?_, by norm_num⟩ <;>
    (unfold dustStep dustVelocity; norm_num)

/-- Claim C3 (amended): the respawn check reads the pre-integration
`y`-position, so any particle whose `y` is below `-15` at the start of a
frame's update is, on that frame, reset to `y = 15` with re-randomized
`x`/`z` and all velocity components zeroed; a particle therefore stays
below the floor for at most one frame. -/
theorem dust_respawn_next_step (p : Particle) (a h : Bool)
    (tX tY tx ty tz rX rZ : ℚ) (hbelow : p.py < -15) :
    dustStep p a h tX tY tx ty tz rX rZ =
      { px := rX, py := 15, pz := rZ, vx := 0, vy := 0, vz := 0 } := by
  unfold dustStep
  simp [hbelow]

/-- Witness for the amended C3 at a concrete particle below the floor. -/
theorem dust_respawn_next_step_witness :
    dustStep ⟨0, -16, 0, 1, 1, 1⟩ true true 2 3 4 5 6 7 8 =
      { px := 7, py := 15, pz := 8, vx := 0, vy := 0, vz := 0 } :=
  dust_respawn_next_step ⟨0, -16, 0, 1, 1, 1⟩ true true 2 3 4 5 6 7 8 (by norm_num)

/-- Claim C9: for any tree height of at least 3 and any `t` and height
jitter, the generated photo-frame target height lies in the closed
interval `[-height/2 + 1, height/2 - 2]`. -/
theorem photo_height_clamped (height t jitter : ℚ) (hh : 3 ≤ height) :
    -height / 2 + 1 ≤ photoFrameHeight height t jitter ∧
    photoFrameHeight height t jitter ≤ height / 2 - 2 := by
  unfold photoFrameHeight
  exact ⟨le_max_left _ _, max_le (by linarith) (min_le_left _ _)⟩

/-- Witness for C9 at the spec's tree height 15 with `t = 0` and a jitter
of `-0.75` (the lowest draw): the height stays in `[-6.5, 5.5]`. -/
theorem photo_height_clamped_witness :
    -(15 : ℚ) / 2 + 1 ≤ photoFrameHeight 15 0 (-0.75) ∧
    photoFrameHeight 15 0 (-0.75) ≤ (15 : ℚ) / 2 - 2 :=
  photo_height_clamped 15 0 (-0.75) (by norm_num)

/-- Claim C1 fails on the code: in `Ornaments.tsx` the angle fed to
`Math.cos`/`Math.sin` for entity 1 (jitter 0) is the raw number 137.5 —
137.5 radians — whereas one golden-angle increment is
`137.5 * π / 180 < 3` radians, so the two differ; `PhotoFrames.tsx`, by
contrast, does convert, and its angle for every index `i` is exactly `i`
golden angles in radians. -/
theorem ornament_angle_not_golden :
    ornamentAngle 1 0 = 137.5 ∧
    goldenAngleRad < 3 ∧
    ornamentAngle 1 0 ≠ 1 * goldenAngleRad ∧
    (∀ i : ℕ, photoFrameAngle i = i * goldenAngleRad) := by
  have hpi : Real.pi < 3.15 := Real.pi_lt_d2
  have h1 : ornamentAngle 1 0 = 137.5 := by
    unfold ornamentAngle; norm_num
  have h2 : goldenAngleRad < 3 := by
    unfold goldenAngleRad; nlinarith [Real.pi_pos]
  refine ⟨h1, h2, ?_, fun i => by unfold photoFrameAngle goldenAngleRad; ring⟩
  intro hcontra
  rw [h1, one_mul] at hcontra
  nlinarith

/-- Error form of one progress update: the distance to the binary target
is multiplied by `exp(-2*dt)`. -/
theorem advanceProgress_sub_target (p dt : ℝ) (state : TreeState) :
    advanceProgress p state dt - progressTarget state =
      (p - progressTarget state) * Real.exp (-2 * dt) := by
  unfold advanceProgress damp lerp progressTarget
  ring

/-- Error form over a frame sequence: the distance to the target is
multiplied by `exp(-2 * total elapsed time)`. -/
theorem advanceList_sub_target (state : TreeState) (dts : List ℝ) :
    ∀ p : ℝ, advanceList p state dts - progressTarget state =
      (p - progressTarget state) * Real.exp (-2 * dts.sum) := by
  induction dts with
  | nil =>
      intro p
      simp [advanceList]
  | cons dt rest ih =>
      intro p
      have h1 : advanceList p state (dt :: rest) =
          advanceList (advanceProgress p state dt) state rest := rfl
      rw [h1, ih, advanceProgress_sub_target, List.sum_cons]
      rw [show -2 * (dt + rest.sum) = -2 * dt + -2 * rest.sum by ring, Real.exp_add]
      ring

/-- Claim C2: the per-frame update is
`p + (target - p) * (1 - exp(-2*dt))`; with the state held fixed,
progress moves monotonically toward the binary target without ever
overshooting it, stays in `[0,1]`, its distance to the target after a
frame sequence is at most `exp(-2 * elapsed time)`, and it is within any
`ε > 0` of the target once the elapsed time reaches `log(1/ε)/2`. -/
theorem progress_advance_spec (p dt : ℝ) (state : TreeState) (dts : List ℝ)
    (hp0 : 0 ≤ p) (hp1 : p ≤ 1) (hdt : 0 ≤ dt) (hdts : ∀ d ∈ dts, 0 ≤ d) :
    advanceProgress p state dt =
      p + (progressTarget state - p) * (1 - Real.exp (-2 * dt)) ∧
    (state = TreeState.FORMED →
      p ≤ advanceProgress p state dt ∧ advanceProgress p state dt ≤ 1 ∧
      p ≤ advanceList p state dts ∧ advanceList p state dts ≤ 1) ∧
    (state = TreeState.CHAOS →
      advanceProgress p state dt ≤ p ∧ 0 ≤ advanceProgress p state dt ∧
      advanceList p state dts ≤ p ∧ 0 ≤ advanceList p state dts) ∧
    |advanceList p state dts - progressTarget state| ≤ Real.exp (-2 * dts.sum) ∧
    (∀ ε : ℝ, 0 < ε → Real.log (1 / ε) / 2 ≤ dts.sum →
      |advanceList p state dts - progressTarget state| ≤ ε) := by
  have hsum : 0 ≤ dts.sum := List.sum_nonneg hdts
  have he1pos : 0 < Real.exp (-2 * dt) := Real.exp_pos _
  have he1le : Real.exp (-2 * dt) ≤ 1 := by
    rw [Real.exp_le_one_iff]; linarith
  have heLpos : 0 < Real.exp (-2 * dts.sum) := Real.exp_pos _
  have heLle : Real.exp (-2 * dts.sum) ≤ 1 := by
    rw [Real.exp_le_one_iff]; linarith
  have hstep := advanceProgress_sub_target p dt state
  have hlist := advanceList_sub_target state dts p
  have habs : |advanceList p state dts - progressTarget state| ≤
      Real.exp (-2 * dts.sum) := by
    rw [hlist, abs_mul, abs_of_pos heLpos]
    have hpt : |p - progressTarget state| ≤ 1 := by
      cases state <;> simp only [progressTarget] <;> rw [abs_le] <;>
        constructor <;> simp <;> linarith
    nlinarith
  refine ⟨?_, ?_, ?_, habs, ?_⟩
  · unfold advanceProgress damp lerp progressTarget
    ring
  · intro hf
    have ht : progressTarget state = 1 := by rw [hf]; simp [progressTarget]
    rw [ht] at hstep hlist
    refine ⟨by nlinarith, by nlinarith, by nlinarith, by nlinarith⟩
  · intro hc
    have ht : progressTarget state = 0 := by rw [hc]; simp [progressTarget]
    rw [ht] at hstep hlist
    have h1 : advanceProgress p state dt = p * Real.exp (-2 * dt) := by linarith
    have h2 : advanceList p state dts = p * Real.exp (-2 * dts.sum) := by linarith
    refine ⟨?_, ?_, ?_, ?_⟩
    · rw [h1]; exact mul_le_of_le_one_right hp0 he1le
    · rw [h1]; exact mul_nonneg hp0 he1pos.le
    · rw [h2]; exact mul_le_of_le_one_right hp0 heLle
    · rw [h2]; exact mul_nonneg hp0 heLpos.le
  · intro ε hε hT
    have hlog : -2 * dts.sum ≤ Real.log ε := by
      rw [one_div, Real.log_inv] at hT
      linarith
    have : Real.exp (-2 * dts.sum) ≤ ε := by
      calc Real.exp (-2 * dts.sum) ≤ Real.exp (Real.log ε) := Real.exp_le_exp.mpr hlog
        _ = ε := Real.exp_log hε
    linarith

/-- Witness for C2: starting from progress 0 in state FORMED, a frame of
one second keeps progress in `[0,1]`. -/
theorem progress_advance_spec_witness :
    (0 : ℝ) ≤ advanceProgress 0 TreeState.FORMED 1 ∧
    advanceProgress 0 TreeState.FORMED 1 ≤ 1 := by
  have h := (progress_advance_spec 0 1 TreeState.FORMED [1]
    (by norm_num) (by norm_num) (by norm_num)
    (by intro d hd; rw [List.mem_singleton] at hd; rw [hd]; norm_num)).2.1 rfl
  exact ⟨h.1, h.2.1⟩
